import Mathlib

/-!
Verification of the BTT auto-manager core (btt_auto.py, getsql.py).

The Python code is embedded shallowly:
* External command execution (`run_adb`, `subprocess.run`) is modelled by an
  environment mapping the exact command-line string to the value the Python
  wrapper returns (`Option String`: `none` is `run_adb`'s failure sentinel,
  `some s` the stripped stdout).  Local-filesystem effects of pull commands
  are modelled by a `creates` field of the environment, and the prior
  existence of the local database file by `localDb0`.
* Functions additionally return the ordered list of command lines they issued
  (their trace), so that "command X is never invoked" claims are statable.
* Python string operations (`in`, `split`, `strip`, `lower`, `splitlines`)
  are implemented on `List Char`; `splitlines` is modelled as splitting on
  `'\n'` and `lower` as ASCII lowering, which coincide with Python on the
  ASCII, `'\n'`-separated texts these programs handle.
-/

/-! ## String helpers (Python semantics) -/

/-- Is `needle` a prefix of `hay`? (decidable, executable) -/
def isPrefixChars : List Char → List Char → Bool
  | [], _ => true
  | _ :: _, [] => false
  | a :: as, b :: bs => a == b && isPrefixChars as bs

/-- The suffix of `hay` after the first occurrence of `needle`,
`none` when `needle` does not occur. -/
def afterFirstChars (needle : List Char) : List Char → Option (List Char)
  | [] => none
  | b :: bs =>
    if isPrefixChars needle (b :: bs) then some ((b :: bs).drop needle.length)
    else afterFirstChars needle bs

/-- Python's `needle in hay` substring test (for nonempty needles). -/
def containsS (hay needle : String) : Bool :=
  (afterFirstChars needle.data hay.data).isSome

/-- Python's `hay.split(sep, 1)[1]`: everything after the first occurrence of
`sep` (callers guard on `containsS`). -/
def afterFirstS (hay sep : String) : String :=
  match afterFirstChars sep.data hay.data with
  | some r => String.mk r
  | none => hay

/-- Split a character list at every occurrence of `c`. -/
def splitChar (c : Char) : List Char → List (List Char)
  | [] => [[]]
  | x :: xs =>
    match splitChar c xs with
    | [] => [[x]]
    | h :: t => if x == c then [] :: h :: t else (x :: h) :: t

/-- Python `str.splitlines`, modelled as splitting on `'\n'`. -/
def splitLines (s : String) : List String :=
  (splitChar '\n' s.data).map String.mk

/-- Python `str.strip`. -/
def stripS (s : String) : String :=
  String.mk (((s.data.dropWhile Char.isWhitespace).reverse.dropWhile
    Char.isWhitespace).reverse)

/-- Python `line.split()[0]` for a line whose `strip()` is nonempty:
the first whitespace-delimited token. -/
def firstToken (s : String) : String :=
  String.mk ((s.data.dropWhile Char.isWhitespace).takeWhile
    (fun c => !c.isWhitespace))

/-- Python `str.lower` (ASCII). -/
def lowerS (s : String) : String :=
  String.mk (s.data.map Char.toLower)

/-- Python truthiness of `run_adb`'s result: `None` and `""` are falsy. -/
def pyTruthy : Option String → Bool
  | none => false
  | some s => s ≠ ""

/-- Python `f"{out}"` for `out : Optional[str]`. -/
def showOut : Option String → String
  | none => "None"
  | some s => s

/-! ## The privilege escalator `run_adb_with_root`

`env` maps a command line to what `run_adb` returns for it (`none` on
non-zero exit / timeout / spawn failure, `some` stripped stdout otherwise).
Each function also returns the list of command lines passed to `run_adb`,
in order. -/

/-- The tier-acceptance test of `run_adb_with_root`
(`out is not None and 'Permission denied' not in str(out)`). -/
def tierOk (out : Option String) : Bool :=
  match out with
  | none => false
  | some o => !containsS o "Permission denied"

/-- `shell_part = cmd.split('shell',1)[1].strip() if 'shell' in cmd else cmd` -/
def shellPart (cmd : String) : String :=
  if containsS cmd "shell" then stripS (afterFirstS cmd "shell") else cmd

/-- The `su 0` form of a command (btt_auto.py line 1489). -/
def su0Cmd (device cmd : String) : String :=
  "adb -s " ++ device ++ " shell su 0 " ++ shellPart cmd

/-- The `su -c` form of a command (btt_auto.py line 1498, getsql.py line 71). -/
def sucCmd (device cmd : String) : String :=
  "adb -s " ++ device ++ " shell su -c \"" ++ shellPart cmd ++ "\""

/-- btt_auto.py `run_adb_with_root` (lines 1477–1506): tiers non-root,
`su 0`, `su -c`, first tier whose output is present without the
`Permission denied` marker wins.  Returns `((output, tierUsed, error), trace)`. -/
def run_adb_with_root (env : String → Option String) (cmd device : String) :
    (Option String × String × Option String) × List String :=
  let out := env cmd
  if tierOk out then ((out, "non-root", none), [cmd])
  else
    let s0 := su0Cmd device cmd
    let su0_out := env s0
    if tierOk su0_out then ((su0_out, "su0", none), [cmd, s0])
    else
      let sc := sucCmd device cmd
      let rootc_out := env sc
      if tierOk rootc_out then ((rootc_out, "suc", none), [cmd, s0, sc])
      else ((none, "all-failed", some "All root forms failed"), [cmd, s0, sc])

/-- getsql.py `run_adb_with_root` (lines 60–79): only two tiers, non-root
then `su -c`; the `su 0` tier does not exist in this revision. -/
def getsql_run_adb_with_root (env : String → Option String)
    (cmd device : String) :
    (Option String × String × Option String) × List String :=
  let out := env cmd
  if tierOk out then ((out, "non-root", none), [cmd])
  else
    let sc := sucCmd device cmd
    let rootc_out := env sc
    if tierOk rootc_out then ((rootc_out, "suc", none), [cmd, sc])
    else ((none, "all-failed", some "All root forms failed"), [cmd, sc])

/-! ## The extraction pipeline `extract_sqlite_data_from_device`

`Env.resp` maps a command line to `run_adb`'s return value for it,
`Env.creates c` says whether executing command `c` materializes the local
database file (the effect of a successful `adb pull`), and `Env.localDb0`
whether the local database file already exists when the run starts
(`os.path.exists(LOCAL_DB_PATH)` is modelled as `localDb0` or-ed with
`creates` over every command issued so far). -/

structure Env where
  resp : String → Option String
  creates : String → Bool
  localDb0 : Bool

/-- The record returned by a pipeline run, plus the full ordered trace of
command lines issued to `run_adb` during the run. -/
structure ExtractOut where
  result : String
  success : Bool
  debug : List String
  issued : List String
deriving Repr, DecidableEq

/-- The three escalation forms of the pipeline's inner loops
(Python `None`, `'su0'`, `'suc'`). -/
inductive RootMethod
  | noRoot
  | su0
  | suc
deriving DecidableEq, Repr

/-- Python `root_method or 'no-root'` as used in the debug entries. -/
def methodName : RootMethod → String
  | .noRoot => "no-root"
  | .su0 => "su0"
  | .suc => "suc"

/-- Model of the constant `LOCAL_DB_PATH`
(`os.path.join(script_dir, 'db', 'sql.db')`; the script directory is
abbreviated, only the string's identity matters). -/
def LOCAL_DB_PATH : String := "db/sql.db"

/-- The `ls -l` probe command for a candidate path (btt_auto.py 1554–1559). -/
def mkLsCmd (d p : String) : RootMethod → String
  | .su0 => "adb -s " ++ d ++ " shell su 0 ls -l \"" ++ p ++ "\""
  | .suc => "adb -s " ++ d ++ " shell su -c \"ls -l " ++ p ++ "\""
  | .noRoot => "adb -s " ++ d ++ " shell ls -l \"" ++ p ++ "\""

/-- The copy-to-sdcard staging command (btt_auto.py 1573–1579). -/
def mkCpCmd (d p : String) : RootMethod → String
  | .su0 => "adb -s " ++ d ++ " shell su 0 cp \"" ++ p ++ "\" /sdcard/sql.db"
  | .suc => "adb -s " ++ d ++ " shell su -c \"cp " ++ p ++ " /sdcard/sql.db\""
  | .noRoot => "adb -s " ++ d ++ " shell cp \"" ++ p ++ "\" /sdcard/sql.db"

/-- The staged-copy verification command (btt_auto.py 1583). -/
def mkCheckCmd (d : String) : String :=
  "adb -s " ++ d ++ " shell ls -l /sdcard/sql.db"

/-- The staged pull command (btt_auto.py 1592). -/
def mkStagedPullCmd (d : String) : String :=
  "adb -s " ++ d ++ " pull /sdcard/sql.db \"" ++ LOCAL_DB_PATH ++ "\""

/-- The sdcard cleanup command (btt_auto.py 1597). -/
def mkCleanupCmd (d : String) : String :=
  "adb -s " ++ d ++ " shell rm /sdcard/sql.db"

/-- The direct pull command (btt_auto.py 1604). -/
def mkDirectPullCmd (d p : String) : String :=
  "adb -s " ++ d ++ " pull \"" ++ p ++ "\" \"" ++ LOCAL_DB_PATH ++ "\""

/-- The probe/staging acceptance test
(`if out and 'No such file' not in out_str and 'Permission denied' not in out_str`). -/
def ls_output_ok : Option String → Bool
  | none => false
  | some s => s ≠ "" && !containsS s "No such file" && !containsS s "Permission denied"

/-- The scan in `get_connected_device` over `adb devices` output lines
(after the header): first line whose strip is nonempty, containing
`device` and not `offline`; its first whitespace token is the device id. -/
def scanDeviceLines : List String → Option String
  | [] => none
  | l :: ls =>
    if stripS l != "" && containsS l "device" && !containsS l "offline" then
      some (firstToken l)
    else scanDeviceLines ls

/-- `get_connected_device` (btt_auto.py 1466–1475). -/
def get_connected_device (env : Env) : Option String :=
  match env.resp "adb devices" with
  | none => none
  | some s => scanDeviceLines ((splitLines s).drop 1)

/-- The pipeline's inner `ls` loop over root methods (btt_auto.py 1552–1566):
returns the first method whose probe output is accepted, with the issued
commands and the debug entries of every attempt made. -/
def try_ls (env : Env) (d p : String) :
    List RootMethod → Option RootMethod × List String × List String
  | [] => (none, [], [])
  | m :: ms =>
    let cmd := mkLsCmd d p m
    let out := env.resp cmd
    let dbg := "ls (" ++ methodName m ++ "): " ++ cmd ++ " => " ++ showOut out
    if ls_output_ok out then (some m, [cmd], [dbg])
    else
      match try_ls env d p ms with
      | (r, is, ds) => (r, cmd :: is, dbg :: ds)

/-- The pipeline's staging loop over root methods (btt_auto.py 1570–1589):
each iteration issues the copy command and then the sdcard check command,
succeeding when the check output is accepted. -/
def try_cp (env : Env) (d p : String) :
    List RootMethod → Bool × List String × List String
  | [] => (false, [], [])
  | m :: ms =>
    let ccmd := mkCpCmd d p m
    let cout := env.resp ccmd
    let cdbg := "cp (" ++ methodName m ++ "): " ++ ccmd ++ " => " ++ showOut cout
    let kcmd := mkCheckCmd d
    let kout := env.resp kcmd
    let kdbg := "ls sdcard: " ++ kcmd ++ " => " ++ showOut kout
    if ls_output_ok kout then (true, [ccmd, kcmd], [cdbg, kdbg])
    else
      match try_cp env d p ms with
      | (ok, is, ds) => (ok, ccmd :: kcmd :: is, cdbg :: kdbg :: ds)

/-- The candidate-path loop of the pipeline (btt_auto.py 1549–1611).
`acc` is the list of commands issued before this call (used to evaluate
`os.path.exists(LOCAL_DB_PATH)` at the two pull checkpoints); the returned
`issued`/`debug` cover only this call's work. -/
def try_paths (env : Env) (d : String) : List String → List String → ExtractOut
  | _, [] =>
    { result := "Database not found or not accessible on any known path",
      success := false, debug := [], issued := [] }
  | acc, p :: ps =>
    let lsr := try_ls env d p [.noRoot, .su0, .suc]
    let body : ExtractOut :=
      match lsr.1 with
      | none =>
        let rest := try_paths env d (acc ++ lsr.2.1) ps
        { result := rest.result, success := rest.success,
          debug := ("File not found or not accessible at " ++ p) :: rest.debug,
          issued := rest.issued }
      | some used =>
        let cpr := try_cp env d p [used, .noRoot, .su0, .suc]
        let accLC := acc ++ lsr.2.1 ++ cpr.2.1
        if cpr.1 then
          let pcmd := mkStagedPullCmd d
          let pout := env.resp pcmd
          let pdbg := "pull: " ++ pcmd ++ " => " ++ showOut pout
          let accP := accLC ++ [pcmd]
          if env.localDb0 || accP.any env.creates then
            let ccmd := mkCleanupCmd d
            { result := "SUCCESS", success := true,
              debug := cpr.2.2 ++ [pdbg, "cleanup: " ++ ccmd],
              issued := cpr.2.1 ++ [pcmd, ccmd] }
          else
            let dcmd := mkDirectPullCmd d p
            let dout := env.resp dcmd
            let ddbg := "direct pull: " ++ dcmd ++ " => " ++ showOut dout
            let accD := accP ++ [dcmd]
            if env.localDb0 || accD.any env.creates then
              { result := "SUCCESS", success := true,
                debug := cpr.2.2 ++ [pdbg, "Failed to pull file from sdcard", ddbg],
                issued := cpr.2.1 ++ [pcmd, dcmd] }
            else
              let rest := try_paths env d accD ps
              { result := rest.result, success := rest.success,
                debug := cpr.2.2 ++ [pdbg, "Failed to pull file from sdcard", ddbg,
                  "Direct pull failed"] ++ rest.debug,
                issued := cpr.2.1 ++ [pcmd, dcmd] ++ rest.issued }
        else
          let dcmd := mkDirectPullCmd d p
          let dout := env.resp dcmd
          let ddbg := "direct pull: " ++ dcmd ++ " => " ++ showOut dout
          let accD := accLC ++ [dcmd]
          if env.localDb0 || accD.any env.creates then
            { result := "SUCCESS", success := true,
              debug := cpr.2.2 ++ [ddbg],
              issued := cpr.2.1 ++ [dcmd] }
          else
            let rest := try_paths env d accD ps
            { result := rest.result, success := rest.success,
              debug := cpr.2.2 ++ [ddbg, "Direct pull failed"] ++ rest.debug,
              issued := cpr.2.1 ++ [dcmd] ++ rest.issued }
    { result := body.result, success := body.success,
      debug := ("Trying path: " ++ p) :: (lsr.2.2 ++ body.debug),
      issued := lsr.2.1 ++ body.issued }

/-- Candidate path 1 (primary expected location). -/
def path1 : String := "/data/data/com.bca.bcatrack/cache/cache/data/sql.db"

/-- Candidate path 2. -/
def path2 : String := "/data/data/com.bca.bcatrack/cache/data/sql.db"

/-- Candidate path 3. -/
def path3 : String := "/data/data/com.bca.bcatrack/files/sql.db"

/-- Candidate path 4. -/
def path4 : String := "/data/data/com.bca.bcatrack/databases/sql.db"

/-- Candidate path 5. -/
def path5 : String := "/sdcard/sql.db"

/-- The static candidate-path list (btt_auto.py 1542–1548). -/
def possible_paths : List String := [path1, path2, path3, path4, path5]

/-- `extract_sqlite_data_from_device` (btt_auto.py 1528–1613). -/
def extract_sqlite_data_from_device (env : Env) : ExtractOut :=
  if !pyTruthy (env.resp "adb version") then
    { result := "ADB not available", success := false,
      debug := ["ADB not available"], issued := ["adb version"] }
  else
    match get_connected_device env with
    | none =>
      { result := "No ADB device connected", success := false,
        debug := ["No ADB device connected"],
        issued := ["adb version", "adb devices"] }
    | some d =>
      let r := try_paths env d ["adb version", "adb devices"] possible_paths
      { result := r.result, success := r.success, debug := r.debug,
        issued := "adb version" :: "adb devices" :: r.issued }

/-- `pull_from_sdcard` (btt_auto.py 1520–1526): issues the pull command,
discards its result, and returns `os.path.exists(LOCAL_DB_PATH)`. -/
def pull_from_sdcard (env : Env) (device : String) : Bool × List String :=
  let pcmd := "adb -s " ++ device ++ " pull /sdcard/sql.db \"" ++ LOCAL_DB_PATH ++ "\""
  (env.localDb0 || env.creates pcmd, [pcmd])

/-! ## The connectivity probe `test_adb_connection`

`subprocess.run` is modelled by `penv` mapping a command line to `none`
(the call raised, e.g. `TimeoutExpired`; the surrounding `except` then
returns `(False, transcript, False)`) or to its completed process record.
The human-readable transcript text is logging only and is not modelled;
the function returns `((connected, unauthorized), issuedCommands)`. -/

structure Proc where
  rc : Int
  stdout : String
  stderr : String
deriving DecidableEq, Repr

/-- `f'ping -c 1 -W 3 {ip.split(":")[0]}'` (btt_auto.py 720). -/
def pingCmd (ip : String) : String :=
  "ping -c 1 -W 3 " ++ String.mk (ip.data.takeWhile (fun c => c != ':'))

/-- `f'adb connect {ip}'` (btt_auto.py 735). -/
def connectCmd (ip : String) : String := "adb connect " ++ ip

/-- The scan over `adb devices` output lines after the header
(btt_auto.py 753–762): the first line containing the address decides;
`unauthorized` is checked before `device`/`offline`; a matching line with
neither marker lets the scan continue. -/
def scan_device_list (ip : String) : List String → Bool × Bool
  | [] => (false, false)
  | l :: ls =>
    if containsS l ip then
      if containsS l "unauthorized" then (false, true)
      else if containsS l "device" && !containsS l "offline" then (true, false)
      else scan_device_list ip ls
    else scan_device_list ip ls

/-- `test_adb_connection` (btt_auto.py 715–774). -/
def test_adb_connection (penv : String → Option Proc) (ip : String) :
    (Bool × Bool) × List String :=
  let pc := pingCmd ip
  match penv pc with
  | none => ((false, false), [pc])
  | some pr =>
    if pr.rc != 0 then ((false, false), [pc])
    else
      let cc := connectCmd ip
      match penv cc with
      | none => ((false, false), [pc, cc])
      | some cr =>
        if cr.rc == 0 && containsS (lowerS cr.stdout) "connected" then
          match penv "adb devices" with
          | none => ((false, false), [pc, cc, "adb devices"])
          | some dr =>
            if dr.rc == 0 then
              (scan_device_list ip ((splitLines dr.stdout).drop 1),
               [pc, cc, "adb devices"])
            else ((false, false), [pc, cc, "adb devices"])
        else ((false, false), [pc, cc])

/-! ## Shared state, persistence and the scheduler toggles

Config mutators return the new document plus the list of filesystem
operations performed against the backing store.  `save_config`
(btt_auto.py 613–621) opens `CONFIG_FILE` for writing and dumps the whole
document; serialization is modelled as a full rendering of every persisted
field (exact JSON formatting abstracted).  The device registry is assumed
to be in the `{ip, name}` record format (`get_adb_ips` normalizes legacy
plain-string entries to that format). -/

structure DeviceEntry where
  ip : String
  name : String
deriving DecidableEq, Repr

structure Config where
  auto_enabled : Bool
  interval_minutes : Int
  adb_ips : List DeviceEntry
  preferred_device : String
deriving DecidableEq, Repr

/-- A filesystem operation against the config store: an in-place full write
of a path, or an atomic rename of one path over another. -/
inductive FsOp
  | write (path content : String)
  | replace (src dst : String)
deriving DecidableEq, Repr

def CONFIG_FILE : String := "btt_config.json"

/-- Full rendering of the persisted document (all fields). -/
def dumpConfig (c : Config) : String :=
  "auto_enabled=" ++ (if c.auto_enabled then "true" else "false")
    ++ ";interval_minutes=" ++ toString c.interval_minutes
    ++ ";adb_ips="
    ++ String.intercalate "," (c.adb_ips.map (fun d => d.ip ++ "=" ++ d.name))
    ++ ";preferred_device=" ++ c.preferred_device

/-- `save_config` (btt_auto.py 613–621): one truncating in-place write of
the whole document to `CONFIG_FILE`. -/
def save_config (c : Config) : List FsOp :=
  [FsOp.write CONFIG_FILE (dumpConfig c)]

/-- `add_adb_ip` (btt_auto.py 623–633).  `name = none` covers Python's
`None`/empty falsy default. -/
def add_adb_ip (cfg : Config) (ip : String) (name : Option String) :
    Config × List FsOp :=
  if cfg.adb_ips.any (fun d => d.ip == ip) then (cfg, [])
  else
    let device_name := name.getD ("Device " ++ toString (cfg.adb_ips.length + 1))
    let cfg' := { cfg with adb_ips := cfg.adb_ips ++ [⟨ip, device_name⟩] }
    (cfg', save_config cfg')

/-- Remove the first entry with the given address. -/
def remove_first : List DeviceEntry → String → List DeviceEntry
  | [], _ => []
  | d :: ds, ip => if d.ip == ip then ds else remove_first ds ip |> (d :: ·)

/-- `remove_adb_ip` (btt_auto.py 635–645): pops the first matching entry and
persists; no change and no write when no entry matches. -/
def remove_adb_ip (cfg : Config) (ip : String) : Config × List FsOp :=
  if cfg.adb_ips.any (fun d => d.ip == ip) then
    let cfg' := { cfg with adb_ips := remove_first cfg.adb_ips ip }
    (cfg', save_config cfg')
  else (cfg, [])

/-- Rename the first entry with the given address. -/
def rename_first : List DeviceEntry → String → String → List DeviceEntry
  | [], _, _ => []
  | d :: ds, ip, nm =>
    if d.ip == ip then ⟨d.ip, nm⟩ :: ds
    else rename_first ds ip nm |> (d :: ·)

/-- `rename_adb_device` (btt_auto.py 647–662). -/
def rename_adb_device (cfg : Config) (ip nm : String) : Config × List FsOp :=
  if cfg.adb_ips.any (fun d => d.ip == ip) then
    let cfg' := { cfg with adb_ips := rename_first cfg.adb_ips ip nm }
    (cfg', save_config cfg')
  else (cfg, [])

/-- `set_interval` (btt_auto.py 1235–1244): clamps to [1, 1440], persists. -/
def set_interval (cfg : Config) (minutes : Int) : Config × List FsOp :=
  let m := if minutes < 1 then 1 else if minutes > 1440 then (1440 : Int) else minutes
  let cfg' := { cfg with interval_minutes := m }
  (cfg', save_config cfg')

/-- Process-local manager state: the in-memory config, the `running` flag,
the `auto_enabled` mirror attribute, and the number of auto-update loop
threads spawned so far (each `threading.Thread(...).start()` adds one). -/
structure MState where
  config : Config
  running : Bool
  auto_enabled : Bool
  threads : Nat
deriving DecidableEq, Repr

/-- `start_auto_update` (btt_auto.py 1204–1218): a no-op when `running` is
already set; otherwise sets `running` and `auto_enabled`, persists, and
spawns exactly one loop thread. -/
def start_auto_update (st : MState) : MState × List FsOp :=
  if st.running then (st, [])
  else
    let cfg' := { st.config with auto_enabled := true }
    let st' := { st with
      running := true
      config := cfg'
      auto_enabled := true
      threads := st.threads + 1 }
    (st', save_config cfg')

/-- `stop_auto_update` (btt_auto.py 1220–1233): clears both flags,
persists, joins the thread (bounded; no state change modelled). -/
def stop_auto_update (st : MState) : MState × List FsOp :=
  let cfg' := { st.config with auto_enabled := false }
  ({ st with running := false, config := cfg', auto_enabled := false },
   save_config cfg')

structure WebhookResp where
  success : Bool
  status : String
  error : Option String
  autoEnabled : Option Bool
deriving DecidableEq, Repr

/-- `toggle_auto_update_webhook` (btt_auto.py 1134–1165).  `conn ip`
abstracts the `connected` component of `self.test_adb_connection(ip)`
(which never raises: it catches all exceptions internally). -/
def toggle_auto_update_webhook (conn : String → Bool) (st : MState) :
    WebhookResp × MState × List FsOp :=
  if st.config.auto_enabled then
    let r := stop_auto_update st
    ({ success := true, status := "success", error := none,
       autoEnabled := some r.1.config.auto_enabled }, r.1, r.2)
  else
    let any_connected := st.config.adb_ips.any (fun dev => conn dev.ip)
    if !any_connected then
      ({ success := false, status := "error",
         error := some "No ADB device connected. Cannot enable auto-update.",
         autoEnabled := none }, st, [])
    else
      let r := start_auto_update st
      ({ success := true, status := "success", error := none,
         autoEnabled := some r.1.config.auto_enabled }, r.1, r.2)

/-- The terminal-menu `toggle_auto_update` (btt_auto.py 1363–1369):
starts or stops with no connectivity check at all. -/
def toggle_auto_update (st : MState) : MState × List FsOp :=
  if st.config.auto_enabled then stop_auto_update st else start_auto_update st

/-! ## C2: privilege-escalation tier order -/

/-- C2 (amended, btt_auto.py revision): `run_adb_with_root` tries the tiers
in the fixed order unprivileged, `su 0`, `su -c`; it returns the output and
tier name of the first tier whose `run_adb` output is present and free of
the `Permission denied` marker, issuing no later tier's command; only when
all three tiers fail does it return the terminal `all-failed` signal (and
then and only then all three commands appear in the trace). -/
theorem c2_escalator_tier_order (env : String → Option String)
    (cmd device : String) :
    (tierOk (env cmd) = true →
      run_adb_with_root env cmd device = ((env cmd, "non-root", none), [cmd]))
    ∧ (tierOk (env cmd) = false → tierOk (env (su0Cmd device cmd)) = true →
      run_adb_with_root env cmd device
        = ((env (su0Cmd device cmd), "su0", none), [cmd, su0Cmd device cmd]))
    ∧ (tierOk (env cmd) = false → tierOk (env (su0Cmd device cmd)) = false →
        tierOk (env (sucCmd device cmd)) = true →
      run_adb_with_root env cmd device
        = ((env (sucCmd device cmd), "suc", none),
           [cmd, su0Cmd device cmd, sucCmd device cmd]))
    ∧ (tierOk (env cmd) = false → tierOk (env (su0Cmd device cmd)) = false →
        tierOk (env (sucCmd device cmd)) = false →
      run_adb_with_root env cmd device
        = ((none, "all-failed", some "All root forms failed"),
           [cmd, su0Cmd device cmd, sucCmd device cmd])) := by
  refine ⟨?_, ?_, ?_, ?_⟩ <;> intros <;> simp [run_adb_with_root, *]

/-- Witness for `c2_escalator_tier_order`: with an environment where the
unprivileged command succeeds, the escalator returns it at tier `non-root`
and issues no su-tier command. -/
theorem c2_escalator_tier_order_witness :
    run_adb_with_root
      (fun c => if c = "adb -s D shell id" then some "uid=2000(shell)" else none)
      "adb -s D shell id" "D"
      = ((some "uid=2000(shell)", "non-root", none), ["adb -s D shell id"]) := by
  have h := (c2_escalator_tier_order
    (fun c => if c = "adb -s D shell id" then some "uid=2000(shell)" else none)
    "adb -s D shell id" "D").1 (by decide)
  simpa using h

/-- C2 counterexample: the getsql.py revision of `run_adb_with_root` never
attempts the `su 0` tier: in an environment where the `su 0` form of the
command would succeed (and the other tiers fail), it returns the terminal
`all-failed` signal, having issued only the unprivileged and `su -c`
commands. -/
theorem c2_getsql_su0_skipped_counterexample :
    tierOk ((fun c => if c = "adb -s D shell su 0 cat /data/f" then
        some "rootok" else none) (su0Cmd "D" "adb -s D shell cat /data/f")) = true
    ∧ getsql_run_adb_with_root
        (fun c => if c = "adb -s D shell su 0 cat /data/f" then
          some "rootok" else none)
        "adb -s D shell cat /data/f" "D"
      = ((none, "all-failed", some "All root forms failed"),
         ["adb -s D shell cat /data/f",
          "adb -s D shell su -c \"cat /data/f\""]) := by decide

/-! ## C5: ping failure short-circuits the probe -/

/-- The first-stage reachability probe failed: `subprocess.run` raised, or
the ping exited non-zero. -/
def ping_fails (penv : String → Option Proc) (ip : String) : Bool :=
  match penv (pingCmd ip) with
  | none => true
  | some pr => pr.rc != 0

/-- C5: if the ping probe fails, `test_adb_connection` returns
`(connected := false, unauthorized := false)` and the only command issued is
the ping itself — no `adb connect` and no `adb devices` invocation. -/
theorem c5_ping_fail_short_circuit (penv : String → Option Proc) (ip : String)
    (h : ping_fails penv ip = true) :
    test_adb_connection penv ip = ((false, false), [pingCmd ip]) := by
  unfold ping_fails at h
  unfold test_adb_connection
  cases hp : penv (pingCmd ip) with
  | none => simp [hp]
  | some pr =>
    rw [hp] at h
    simp only [bne_iff_ne, ne_eq] at h
    simp [hp, h]

/-- Witness for `c5_ping_fail_short_circuit` at a concrete environment where
every process exits with status 1. -/
theorem c5_ping_fail_short_circuit_witness :
    test_adb_connection (fun _ => some ⟨1, "", ""⟩) "10.0.0.9:5555"
      = ((false, false), [pingCmd "10.0.0.9:5555"]) :=
  c5_ping_fail_short_circuit (fun _ => some ⟨1, "", ""⟩) "10.0.0.9:5555" (by decide)

/-! ## C7: config persistence discipline -/

/-- The spec's write-temp-then-replace discipline: the new content goes to a
temporary file which then atomically replaces the target. -/
def isTempThenReplace (ops : List FsOp) (target : String) : Prop :=
  ∃ tmp content, tmp ≠ target
    ∧ ops = [FsOp.write tmp content, FsOp.replace tmp target]

/-- C7 counterexample: the write performed by a concrete `set_interval`
mutation is not a write-temp-then-replace sequence (it is a single direct
write of `CONFIG_FILE`). -/
theorem c7_no_temp_replace_counterexample :
    ¬ isTempThenReplace (set_interval ⟨false, 5, [], ""⟩ 7).2 CONFIG_FILE := by
  rintro ⟨tmp, content, hne, heq⟩
  simp [set_interval, save_config] at heq

/-- C7 (amended): every mutation of a persisted configuration field that
writes at all performs exactly one full rewrite of the entire document,
written directly (in place) to `CONFIG_FILE` — no temporary file and no
replace step are involved, so the rewrite is full but not atomic. -/
theorem c7_mutations_write_full_document_in_place (cfg : Config)
    (minutes : Int) (ip nm : String) (st : MState) :
    (set_interval cfg minutes).2
        = [FsOp.write CONFIG_FILE (dumpConfig (set_interval cfg minutes).1)]
    ∧ ((add_adb_ip cfg ip (some nm)).2 = []
        ∨ (add_adb_ip cfg ip (some nm)).2
            = [FsOp.write CONFIG_FILE (dumpConfig (add_adb_ip cfg ip (some nm)).1)])
    ∧ ((remove_adb_ip cfg ip).2 = []
        ∨ (remove_adb_ip cfg ip).2
            = [FsOp.write CONFIG_FILE (dumpConfig (remove_adb_ip cfg ip).1)])
    ∧ ((rename_adb_device cfg ip nm).2 = []
        ∨ (rename_adb_device cfg ip nm).2
            = [FsOp.write CONFIG_FILE (dumpConfig (rename_adb_device cfg ip nm).1)])
    ∧ ((start_auto_update st).2 = []
        ∨ (start_auto_update st).2
            = [FsOp.write CONFIG_FILE (dumpConfig (start_auto_update st).1.config)])
    ∧ (stop_auto_update st).2
        = [FsOp.write CONFIG_FILE (dumpConfig (stop_auto_update st).1.config)] := by
  refine ⟨rfl, ?_, ?_, ?_, ?_, rfl⟩
  · by_cases h : cfg.adb_ips.any (fun d => d.ip == ip)
      <;> simp [add_adb_ip, h, save_config]
  · by_cases h : cfg.adb_ips.any (fun d => d.ip == ip)
      <;> simp [remove_adb_ip, h, save_config]
  · by_cases h : cfg.adb_ips.any (fun d => d.ip == ip)
      <;> simp [rename_adb_device, h, save_config]
  · by_cases h : st.running
      <;> simp [start_auto_update, h, save_config]

/-! ## C8: no double-start of the scheduler loop -/

/-- C8: a start request while the loop already runs is a strict no-op
(state unchanged, nothing persisted, no thread spawned); starting from a
non-running state spawns exactly one loop thread; and a second start
request immediately after any first one changes nothing, so after two
consecutive start requests exactly one new loop thread exists. -/
theorem c8_no_double_start (st : MState) :
    (st.running = true → start_auto_update st = (st, []))
    ∧ start_auto_update (start_auto_update st).1 = ((start_auto_update st).1, [])
    ∧ (st.running = false → (start_auto_update st).1.threads = st.threads + 1) := by
  refine ⟨?_, ?_, ?_⟩
  · intro h; simp [start_auto_update, h]
  · by_cases h : st.running <;> simp [start_auto_update, h]
  · intro h; simp [start_auto_update, h]

/-- Witness for `c8_no_double_start`: from a concrete stopped state, the
first start spawns one thread and the second start is the identity. -/
theorem c8_no_double_start_witness :
    (start_auto_update ⟨⟨false, 5, [⟨"10.0.0.5:5555", "Van1"⟩], ""⟩,
        false, false, 0⟩).1.threads = 0 + 1
    ∧ start_auto_update
        (start_auto_update ⟨⟨false, 5, [⟨"10.0.0.5:5555", "Van1"⟩], ""⟩,
          false, false, 0⟩).1
      = ((start_auto_update ⟨⟨false, 5, [⟨"10.0.0.5:5555", "Van1"⟩], ""⟩,
          false, false, 0⟩).1, []) :=
  ⟨(c8_no_double_start ⟨⟨false, 5, [⟨"10.0.0.5:5555", "Van1"⟩], ""⟩,
      false, false, 0⟩).2.2 rfl,
   (c8_no_double_start ⟨⟨false, 5, [⟨"10.0.0.5:5555", "Van1"⟩], ""⟩,
      false, false, 0⟩).2.1⟩

/-! ## C10: device-registry uniqueness -/

/-- `remove_first` removes at most one entry: the result is a sublist. -/
theorem remove_first_sublist (l : List DeviceEntry) (ip : String) :
    (remove_first l ip).Sublist l := by
  induction l with
  | nil => simp [remove_first]
  | cons d ds ih =>
    by_cases h : d.ip == ip
    · simp [remove_first, h]
    · simpa [remove_first, h] using ih.cons₂ d

/-- `rename_first` only changes display names, never addresses. -/
theorem rename_first_map_ip (l : List DeviceEntry) (ip nm : String) :
    (rename_first l ip nm).map (fun d => d.ip) = l.map (fun d => d.ip) := by
  induction l with
  | nil => simp [rename_first]
  | cons d ds ih =>
    by_cases h : d.ip == ip
    · simp only [rename_first, h, if_pos, List.map_cons]
    · simp [rename_first, h, ih]

/-- An address occurs in the registry's address list iff the Python
membership test `any (d.ip == ip)` holds. -/
theorem mem_map_ip_iff_any (l : List DeviceEntry) (ip : String) :
    ip ∈ l.map (fun d => d.ip) ↔ l.any (fun d => d.ip == ip) = true := by
  rw [List.any_eq_true]
  constructor
  · intro hm
    rcases List.mem_map.1 hm with ⟨d, hd, he⟩
    exact ⟨d, hd, by simp [he]⟩
  · intro ha
    rcases ha with ⟨d, hd, he⟩
    exact List.mem_map.2 ⟨d, hd, by simpa using he⟩

/-- C10: registering an already-registered address is a strict no-op (same
registry, same display names, nothing persisted); and assuming every entry
is an `{ip, name}` record with pairwise-distinct addresses, register,
unregister and rename all preserve that uniqueness. -/
theorem c10_registry_address_unique (cfg : Config) (ip : String)
    (name? : Option String)
    (hdup : cfg.adb_ips.any (fun d => d.ip == ip) = true)
    (hnd : (cfg.adb_ips.map (fun d => d.ip)).Nodup) :
    add_adb_ip cfg ip name? = (cfg, [])
    ∧ ((add_adb_ip cfg ip name?).1.adb_ips.map (fun d => d.ip)).Nodup
    ∧ (∀ ip', ((add_adb_ip cfg ip' name?).1.adb_ips.map (fun d => d.ip)).Nodup)
    ∧ (∀ ip', ((remove_adb_ip cfg ip').1.adb_ips.map (fun d => d.ip)).Nodup)
    ∧ (∀ ip' nm',
        ((rename_adb_device cfg ip' nm').1.adb_ips.map (fun d => d.ip)).Nodup) := by
  have hadd : ∀ ip',
      ((add_adb_ip cfg ip' name?).1.adb_ips.map (fun d => d.ip)).Nodup := by
    intro ip'
    by_cases h : cfg.adb_ips.any (fun d => d.ip == ip')
    · simpa [add_adb_ip, h] using hnd
    · have hnotmem : ip' ∉ cfg.adb_ips.map (fun d => d.ip) := by
        rw [mem_map_ip_iff_any]
        simp [h]
      simp [add_adb_ip, h, List.nodup_append, hnd, hnotmem]
  refine ⟨by simp [add_adb_ip, hdup], hadd ip, hadd, ?_, ?_⟩
  · intro ip'
    by_cases h : cfg.adb_ips.any (fun d => d.ip == ip')
    · simp only [remove_adb_ip, h, if_pos]
      exact hnd.sublist ((remove_first_sublist cfg.adb_ips ip').map _)
    · simpa [remove_adb_ip, h] using hnd
  · intro ip' nm'
    by_cases h : cfg.adb_ips.any (fun d => d.ip == ip')
    · simp only [rename_adb_device, h, if_pos]
      simpa [rename_first_map_ip] using hnd
    · simpa [rename_adb_device, h] using hnd

/-- Witness for `c10_registry_address_unique` at a concrete two-device
registry: re-adding a present address changes nothing and writes nothing. -/
theorem c10_registry_address_unique_witness :
    add_adb_ip ⟨false, 5, [⟨"10.0.0.5:5555", "Van1"⟩, ⟨"10.0.0.6:5555", "Van2"⟩], ""⟩
        "10.0.0.5:5555" (some "Other")
      = (⟨false, 5, [⟨"10.0.0.5:5555", "Van1"⟩, ⟨"10.0.0.6:5555", "Van2"⟩], ""⟩, []) :=
  (c10_registry_address_unique
    ⟨false, 5, [⟨"10.0.0.5:5555", "Van1"⟩, ⟨"10.0.0.6:5555", "Van2"⟩], ""⟩
    "10.0.0.5:5555" (some "Other") (by decide) (by decide)).1

/-! ## C1: gating of the enabled flag on connectivity -/

/-- C1 counterexample: the terminal-menu toggle (`toggle_auto_update`)
transitions `auto_enabled` from false to true with zero registered devices
(so in particular zero devices passing the connectivity probe) — it performs
no connectivity check at all. -/
theorem c1_menu_toggle_enables_without_device_counterexample :
    (⟨⟨false, 5, [], ""⟩, false, false, 0⟩ : MState).config.adb_ips = []
    ∧ (⟨⟨false, 5, [], ""⟩, false, false, 0⟩ : MState).config.auto_enabled = false
    ∧ (toggle_auto_update
        ⟨⟨false, 5, [], ""⟩, false, false, 0⟩).1.config.auto_enabled = true := by
  decide

/-- C1 (amended): the webhook toggle (`toggle_auto_update_webhook`) does
enforce the gate: starting from `auto_enabled = false`, if no registered
device passes the connectivity probe, the call returns a rejection with an
explicit reason, leaves the state completely unchanged (`auto_enabled`
still false, `running` untouched, no loop thread spawned) and persists
nothing.  The terminal-menu toggle does not enforce this gate
(see the counterexample). -/
theorem c1_webhook_rejects_without_device (conn : String → Bool) (st : MState)
    (hEn : st.config.auto_enabled = false)
    (hConn : ∀ dev ∈ st.config.adb_ips, conn dev.ip = false) :
    toggle_auto_update_webhook conn st
      = ({ success := false, status := "error",
           error := some "No ADB device connected. Cannot enable auto-update.",
           autoEnabled := none }, st, []) := by
  have hAny : st.config.adb_ips.any (fun dev => conn dev.ip) = false := by
    rw [List.any_eq_false]
    intro dev hdev
    simp [hConn dev hdev]
  simp [toggle_auto_update_webhook, hEn, hAny]

/-- Witness for `c1_webhook_rejects_without_device`: a registry with one
device, none connected. -/
theorem c1_webhook_rejects_without_device_witness :
    toggle_auto_update_webhook (fun _ => false)
      ⟨⟨false, 5, [⟨"10.0.0.5:5555", "Van1"⟩], ""⟩, false, false, 0⟩
      = ({ success := false, status := "error",
           error := some "No ADB device connected. Cannot enable auto-update.",
           autoEnabled := none },
         ⟨⟨false, 5, [⟨"10.0.0.5:5555", "Van1"⟩], ""⟩, false, false, 0⟩, []) :=
  c1_webhook_rejects_without_device (fun _ => false)
    ⟨⟨false, 5, [⟨"10.0.0.5:5555", "Van1"⟩], ""⟩, false, false, 0⟩
    rfl (fun _ _ => rfl)

/-! ## C6: device-list outcomes of the probe -/

/-- A device-list line decides the scan: it contains the target address
together with a decisive marker — `unauthorized`, or `device` without
`offline`.  The scan skips every other line (non-matching ones and
matching-but-indecisive ones, such as the address listed as `offline`). -/
def line_decides (ip l : String) : Bool :=
  containsS l ip
    && (containsS l "unauthorized"
        || (containsS l "device" && !containsS l "offline"))

/-- Lines that do not decide the scan are skipped. -/
theorem scan_device_list_skip (ip : String) (pre rest : List String)
    (h : ∀ l ∈ pre, line_decides ip l = false) :
    scan_device_list ip (pre ++ rest) = scan_device_list ip rest := by
  induction pre with
  | nil => rfl
  | cons l ls ih =>
    have hl := h l (List.mem_cons_self _ _)
    have htail := ih (fun x hx => h x (List.mem_cons_of_mem _ hx))
    by_cases hm : containsS l ip = true
    · by_cases hun : containsS l "unauthorized" = true
      · simp [line_decides, hm, hun] at hl
      · by_cases hdo : (containsS l "device" && !containsS l "offline") = true
        · simp [line_decides, hm, hdo] at hl
        · simp only [Bool.not_eq_true] at hun hdo
          simpa [List.cons_append, scan_device_list, hm, hun, hdo] using htail
    · simp only [Bool.not_eq_true] at hm
      simpa [List.cons_append, scan_device_list, hm] using htail

/-- C6: after a successful ping and a successful bridge connect, the
device-list query decides the probe outcome by the first line (after the
header) that contains the address with a decisive marker: if that line
carries the `unauthorized` marker the probe reports
`(connected := false, unauthorized := true)`; if it instead carries
`device` and not `offline` it reports `(true, false)`; every other
device-list outcome — no line containing the address with a decisive
marker (including the address listed as `offline`), or the device-list
command exiting non-zero — reports `(false, false)`. -/
theorem c6_device_list_outcomes (penv : String → Option Proc) (ip : String)
    (pr cr dr : Proc)
    (hp : penv (pingCmd ip) = some pr) (hprc : pr.rc = 0)
    (hc : penv (connectCmd ip) = some cr) (hcrc : cr.rc = 0)
    (hcout : containsS (lowerS cr.stdout) "connected" = true)
    (hd : penv "adb devices" = some dr) :
    (∀ pre l post, dr.rc = 0 →
        (splitLines dr.stdout).drop 1 = pre ++ l :: post →
        (∀ x ∈ pre, line_decides ip x = false) →
        containsS l ip = true →
        ((containsS l "unauthorized" = true →
            (test_adb_connection penv ip).1 = (false, true))
         ∧ (containsS l "unauthorized" = false →
            containsS l "device" = true → containsS l "offline" = false →
            (test_adb_connection penv ip).1 = (true, false))))
    ∧ (dr.rc = 0 →
        (∀ x ∈ (splitLines dr.stdout).drop 1, line_decides ip x = false) →
        (test_adb_connection penv ip).1 = (false, false))
    ∧ (dr.rc ≠ 0 → (test_adb_connection penv ip).1 = (false, false)) := by
  have key : dr.rc = 0 →
      test_adb_connection penv ip
        = (scan_device_list ip ((splitLines dr.stdout).drop 1),
           [pingCmd ip, connectCmd ip, "adb devices"]) := by
    intro h0
    simp [test_adb_connection, hp, hprc, hc, hcrc, hcout, hd, h0]
  refine ⟨?_, ?_, ?_⟩
  · intro pre l post h0 hsplit hpre hl
    have hsc : (test_adb_connection penv ip).1
        = scan_device_list ip (pre ++ l :: post) := by
      rw [key h0, ← hsplit]
    rw [scan_device_list_skip ip pre _ hpre] at hsc
    constructor
    · intro hun
      rw [hsc]
      simp [scan_device_list, hl, hun]
    · intro hun hdev hoff
      rw [hsc]
      simp [scan_device_list, hl, hun, hdev, hoff]
  · intro h0 hall
    have hsc : (test_adb_connection penv ip).1
        = scan_device_list ip ((splitLines dr.stdout).drop 1) := by
      rw [key h0]
    rw [hsc, ← List.append_nil ((splitLines dr.stdout).drop 1),
      scan_device_list_skip ip _ [] hall]
    rfl
  · intro h0
    simp [test_adb_connection, hp, hprc, hc, hcrc, hcout, hd, h0]

/-- Witness for `c6_device_list_outcomes`: a concrete transcript whose
device list first shows the address as `offline` (a matching but
indecisive line, skipped by the scan) and then as `unauthorized`, yielding
`(connected := false, unauthorized := true)`. -/
theorem c6_device_list_outcomes_witness :
    (test_adb_connection
      (fun c =>
        if c = pingCmd "10.0.0.5:5555" then some ⟨0, "1 received", ""⟩
        else if c = connectCmd "10.0.0.5:5555" then
          some ⟨0, "connected to 10.0.0.5:5555", ""⟩
        else some ⟨0,
          "List of devices attached\n10.0.0.5:5555\toffline\n10.0.0.5:5555\tunauthorized",
          ""⟩)
      "10.0.0.5:5555").1 = (false, true) := by
  have h := ((c6_device_list_outcomes
    (fun c =>
      if c = pingCmd "10.0.0.5:5555" then some ⟨0, "1 received", ""⟩
      else if c = connectCmd "10.0.0.5:5555" then
        some ⟨0, "connected to 10.0.0.5:5555", ""⟩
      else some ⟨0,
        "List of devices attached\n10.0.0.5:5555\toffline\n10.0.0.5:5555\tunauthorized",
        ""⟩)
    "10.0.0.5:5555"
    ⟨0, "1 received", ""⟩ ⟨0, "connected to 10.0.0.5:5555", ""⟩
    ⟨0, "List of devices attached\n10.0.0.5:5555\toffline\n10.0.0.5:5555\tunauthorized", ""⟩
    (by decide) rfl (by decide) rfl (by decide) (by decide)).1
    ["10.0.0.5:5555\toffline"] "10.0.0.5:5555\tunauthorized" [] rfl (by decide)
    (by decide) (by decide)).1 (by decide)
  exact h

/-! ## Pipeline lemmas -/

/-- When the first method's probe output is accepted, `try_ls` stops at it:
one command issued, one debug entry. -/
theorem try_ls_head_ok (env : Env) (d p : String) (m : RootMethod)
    (ms : List RootMethod)
    (h : ls_output_ok (env.resp (mkLsCmd d p m)) = true) :
    try_ls env d p (m :: ms)
      = (some m, [mkLsCmd d p m],
         ["ls (" ++ methodName m ++ "): " ++ mkLsCmd d p m ++ " => "
           ++ showOut (env.resp (mkLsCmd d p m))]) := by
  simp [try_ls, h]

/-- When every method's probe output is rejected, `try_ls` tries all of
them in order and reports no method found. -/
theorem try_ls_all_fail (env : Env) (d p : String) (ms : List RootMethod)
    (h : ∀ m ∈ ms, ls_output_ok (env.resp (mkLsCmd d p m)) = false) :
    try_ls env d p ms
      = (none, ms.map (mkLsCmd d p),
         ms.map (fun m => "ls (" ++ methodName m ++ "): " ++ mkLsCmd d p m
           ++ " => " ++ showOut (env.resp (mkLsCmd d p m)))) := by
  induction ms with
  | nil => rfl
  | cons m ms ih =>
    have hm : ls_output_ok (env.resp (mkLsCmd d p m)) = false :=
      h m (List.mem_cons_self _ _)
    have ih' := ih (fun x hx => h x (List.mem_cons_of_mem _ hx))
    simp [try_ls, hm, ih']

/-- When the sdcard check succeeds, `try_cp` stops at the first method:
the copy command and the check command are issued, staging is confirmed. -/
theorem try_cp_head_ok (env : Env) (d p : String) (m : RootMethod)
    (ms : List RootMethod)
    (h : ls_output_ok (env.resp (mkCheckCmd d)) = true) :
    try_cp env d p (m :: ms)
      = (true, [mkCpCmd d p m, mkCheckCmd d],
         ["cp (" ++ methodName m ++ "): " ++ mkCpCmd d p m ++ " => "
           ++ showOut (env.resp (mkCpCmd d p m)),
          "ls sdcard: " ++ mkCheckCmd d ++ " => "
           ++ showOut (env.resp (mkCheckCmd d))]) := by
  simp [try_cp, h]

/-- A nonempty candidate list always contributes its `Trying path` entry:
the diagnostic trace of `try_paths` is never empty. -/
theorem try_paths_debug_cons (env : Env) (d : String) (acc : List String)
    (p : String) (ps : List String) :
    ∃ t, (try_paths env d acc (p :: ps)).debug = ("Trying path: " ++ p) :: t :=
  ⟨_, rfl⟩

/-! ## C4: diagnostic-trace surfacing -/

/-- C4 (amended): the diagnostic trace accumulated during a run is carried
in the returned record for every outcome — including success — and is
never empty; it is only the console display that is restricted to failing
runs.  (Freshness per run is structural: the trace is rebuilt from scratch
by every invocation.) -/
theorem c4_trace_in_every_outcome (env : Env) :
    (extract_sqlite_data_from_device env).debug ≠ [] := by
  unfold extract_sqlite_data_from_device
  by_cases hv : pyTruthy (env.resp "adb version")
  · cases hd : get_connected_device env with
    | none => simp [hv, hd]
    | some d =>
      simp only [hv, Bool.not_true, Bool.false_eq_true, if_false, hd,
        possible_paths]
      obtain ⟨t, ht⟩ := try_paths_debug_cons env d ["adb version", "adb devices"]
        path1 [path2, path3, path4, path5]
      simp [ht]
  · simp [hv]

/-- A successful concrete run: the primary path probes readable
unprivileged, staging is confirmed, and the staged pull materializes the
local file. -/
def c4SuccessEnv : Env :=
  ⟨fun c =>
    if c = "adb version" then some "Android Debug Bridge version 1.0.41"
    else if c = "adb devices" then some "List of devices attached\nD1\tdevice"
    else if c = mkLsCmd "D1" path1 .noRoot then
      some "-rw------- u0_a123 u0_a123 4096 sql.db"
    else if c = mkCheckCmd "D1" then some "-rw-rw---- root sdcard_rw 4096 sql.db"
    else none,
   fun c => c == mkStagedPullCmd "D1", false⟩

/-- C4 counterexample: a run whose outcome is success still returns a
nonempty diagnostic trace (the Python `return {"result": "SUCCESS", ...,
"debug": debug_log}` includes the trace unconditionally). -/
theorem c4_success_surfaces_trace_counterexample :
    (extract_sqlite_data_from_device c4SuccessEnv).success = true
    ∧ (extract_sqlite_data_from_device c4SuccessEnv).debug ≠ [] := by decide

/-! ## C9: success decided by local-file existence, not pull result -/

/-- If the local database file already exists when the run starts and some
candidate's unprivileged probe is accepted, the path iteration reports
SUCCESS — regardless of what any staging, check or pull command returns. -/
theorem try_paths_success_of_localDb0 (env : Env) (d : String)
    (acc : List String) (p : String) (ps : List String)
    (hdb : env.localDb0 = true)
    (hls : ls_output_ok (env.resp (mkLsCmd d p .noRoot)) = true) :
    (try_paths env d acc (p :: ps)).success = true
    ∧ (try_paths env d acc (p :: ps)).result = "SUCCESS" := by
  have h1 := try_ls_head_ok env d p .noRoot [.su0, .suc] hls
  simp only [try_paths, h1, hdb, Bool.true_or, if_true]
  split <;> simp

/-- C9: after the pull step the run's outcome is decided solely by whether
the local database file exists, not by the pull command's own result: with
the primary path confirmed and a local copy left over from an earlier run,
the pipeline reports success whatever the pull commands return (the
hypotheses constrain no staging, check or pull response).  Likewise
`pull_from_sdcard` returns true in that situation regardless of the pull
command's outcome. -/
theorem c9_success_decided_by_local_file (env : Env) (d : String)
    (hv : pyTruthy (env.resp "adb version") = true)
    (hd : get_connected_device env = some d)
    (hls : ls_output_ok (env.resp (mkLsCmd d path1 .noRoot)) = true)
    (hdb : env.localDb0 = true) :
    (extract_sqlite_data_from_device env).success = true
    ∧ (extract_sqlite_data_from_device env).result = "SUCCESS"
    ∧ (pull_from_sdcard env d).1 = true := by
  have h := try_paths_success_of_localDb0 env d ["adb version", "adb devices"]
    path1 [path2, path3, path4, path5] hdb hls
  refine ⟨?_, ?_, by simp [pull_from_sdcard, hdb]⟩
  · simpa [extract_sqlite_data_from_device, hv, hd, possible_paths] using h.1
  · simpa [extract_sqlite_data_from_device, hv, hd, possible_paths] using h.2

/-- A concrete run for `c9_success_decided_by_local_file`: the primary path
probes readable, but every staging/check/pull command fails (`run_adb`
returns its failure sentinel) and no command materializes the local file;
only the pre-existing local copy is present. -/
def c9StaleLocalEnv : Env :=
  ⟨fun c =>
    if c = "adb version" then some "Android Debug Bridge version 1.0.41"
    else if c = "adb devices" then some "List of devices attached\nD1\tdevice"
    else if c = mkLsCmd "D1" path1 .noRoot then
      some "-rw------- u0_a123 u0_a123 4096 sql.db"
    else none,
   fun _ => false, true⟩

/-- Witness for `c9_success_decided_by_local_file`: the pull commands all
fail, yet the run reports SUCCESS because a stale local copy exists. -/
theorem c9_success_decided_by_local_file_witness :
    (extract_sqlite_data_from_device c9StaleLocalEnv).success = true
    ∧ (extract_sqlite_data_from_device c9StaleLocalEnv).result = "SUCCESS"
    ∧ (pull_from_sdcard c9StaleLocalEnv "D1").1 = true :=
  c9_success_decided_by_local_file c9StaleLocalEnv "D1"
    (by decide) (by decide) (by decide) rfl

/-! ## C3: candidate-path probing order -/

/-- A concrete run where the primary path is confirmed readable but every
staging and pull attempt fails (the staged copy never appears on the
sdcard, pulls return the failure sentinel, no local file exists). -/
def c3ContinueEnv : Env :=
  ⟨fun c =>
    if c = "adb version" then some "Android Debug Bridge version 1.0.41"
    else if c = "adb devices" then some "List of devices attached\nD1\tdevice"
    else if c = mkLsCmd "D1" path1 .noRoot then
      some "-rw------- u0_a123 u0_a123 4096 sql.db"
    else if c = mkCheckCmd "D1" then
      some "ls: /sdcard/sql.db: No such file or directory"
    else none,
   fun _ => false, false⟩

/-- C3 counterexample: in `c3ContinueEnv` the first candidate path is
confirmed present and readable (its unprivileged probe output is accepted),
yet the pipeline goes on to probe the second candidate, and it reports the
terminal not-found outcome even though a candidate was confirmed — the
probing does not stop at the first confirmed path when the transfer from it
fails. -/
theorem c3_probe_after_confirmation_counterexample :
    ls_output_ok (c3ContinueEnv.resp (mkLsCmd "D1" path1 .noRoot)) = true
    ∧ mkLsCmd "D1" path2 .noRoot
        ∈ (extract_sqlite_data_from_device c3ContinueEnv).issued
    ∧ (extract_sqlite_data_from_device c3ContinueEnv).result
        = "Database not found or not accessible on any known path"
    ∧ (extract_sqlite_data_from_device c3ContinueEnv).success = false := by
  decide

/-- C3 (amended): candidates are probed in declared order and probing stops
at the first confirmed path provided the transfer from it succeeds; with
candidate 1 absent on every tier and candidate 2 present unprivileged, the
staging confirmed and the staged pull materializing the local file, the run
reports SUCCESS and its full command trace is exactly: the tool and
device-list checks, the three failed probes of candidate 1, the one probe
of candidate 2, one staging copy and its verification, the staged pull and
the cleanup — so no staging or transfer command ever targets the
unconfirmed candidate 1, and no later candidate is probed.  (When the
transfer from a confirmed path fails, however, the pipeline moves on to
later candidates — see the counterexample — so not-found is reported only
after no candidate yielded a successful materialization, not necessarily
without any confirmation.) -/
theorem c3_first_confirmed_path_selected (env : Env) (d : String)
    (hv : pyTruthy (env.resp "adb version") = true)
    (hd : get_connected_device env = some d)
    (h1 : ∀ m, ls_output_ok (env.resp (mkLsCmd d path1 m)) = false)
    (h2 : ls_output_ok (env.resp (mkLsCmd d path2 .noRoot)) = true)
    (hk : ls_output_ok (env.resp (mkCheckCmd d)) = true)
    (hcr : env.creates (mkStagedPullCmd d) = true) :
    (extract_sqlite_data_from_device env).success = true
    ∧ (extract_sqlite_data_from_device env).result = "SUCCESS"
    ∧ (extract_sqlite_data_from_device env).issued
        = ["adb version", "adb devices",
           mkLsCmd d path1 .noRoot, mkLsCmd d path1 .su0, mkLsCmd d path1 .suc,
           mkLsCmd d path2 .noRoot, mkCpCmd d path2 .noRoot, mkCheckCmd d,
           mkStagedPullCmd d, mkCleanupCmd d] := by
  have e1 := try_ls_all_fail env d path1 [.noRoot, .su0, .suc] (fun m _ => h1 m)
  have e2 := try_ls_head_ok env d path2 .noRoot [.su0, .suc] h2
  have e3 := try_cp_head_ok env d path2 .noRoot [.noRoot, .su0, .suc] hk
  have hp2 : ∀ acc : List String,
      (try_paths env d acc [path2, path3, path4, path5]).success = true
      ∧ (try_paths env d acc [path2, path3, path4, path5]).result = "SUCCESS"
      ∧ (try_paths env d acc [path2, path3, path4, path5]).issued
          = [mkLsCmd d path2 .noRoot, mkCpCmd d path2 .noRoot, mkCheckCmd d,
             mkStagedPullCmd d, mkCleanupCmd d] := by
    intro acc
    refine ⟨?_, ?_, ?_⟩ <;> simp [try_paths, e2, e3, hcr]
  have hstep : ∀ acc : List String,
      (try_paths env d acc (path1 :: [path2, path3, path4, path5])).success
        = (try_paths env d (acc ++ [mkLsCmd d path1 .noRoot, mkLsCmd d path1 .su0,
            mkLsCmd d path1 .suc]) [path2, path3, path4, path5]).success
      ∧ (try_paths env d acc (path1 :: [path2, path3, path4, path5])).result
        = (try_paths env d (acc ++ [mkLsCmd d path1 .noRoot, mkLsCmd d path1 .su0,
            mkLsCmd d path1 .suc]) [path2, path3, path4, path5]).result
      ∧ (try_paths env d acc (path1 :: [path2, path3, path4, path5])).issued
        = [mkLsCmd d path1 .noRoot, mkLsCmd d path1 .su0, mkLsCmd d path1 .suc]
          ++ (try_paths env d (acc ++ [mkLsCmd d path1 .noRoot, mkLsCmd d path1 .su0,
              mkLsCmd d path1 .suc]) [path2, path3, path4, path5]).issued := by
    intro acc
    refine ⟨?_, ?_, ?_⟩
    all_goals
      conv_lhs => rw [try_paths]
      rw [e1]
      simp
  have hx : extract_sqlite_data_from_device env
      = { result := (try_paths env d ["adb version", "adb devices"] possible_paths).result,
          success := (try_paths env d ["adb version", "adb devices"] possible_paths).success,
          debug := (try_paths env d ["adb version", "adb devices"] possible_paths).debug,
          issued := "adb version" :: "adb devices" ::
            (try_paths env d ["adb version", "adb devices"] possible_paths).issued } := by
    simp [extract_sqlite_data_from_device, hv, hd]
  rw [hx]
  have hpp : possible_paths = path1 :: [path2, path3, path4, path5] := rfl
  rw [hpp]
  refine ⟨?_, ?_, ?_⟩
  · rw [(hstep _).1, (hp2 _).1]
  · rw [(hstep _).2.1, (hp2 _).2.1]
  · rw [(hstep _).2.2, (hp2 _).2.2]
    simp

/-- A concrete run where the primary candidate is absent on all tiers and
the second candidate is present unprivileged; staging and the staged pull
succeed. -/
def c3SecondaryEnv : Env :=
  ⟨fun c =>
    if c = "adb version" then some "Android Debug Bridge version 1.0.41"
    else if c = "adb devices" then some "List of devices attached\nD2\tdevice"
    else if c = mkLsCmd "D2" path2 .noRoot then
      some "-rw------- u0_a123 u0_a123 4096 sql.db"
    else if c = mkCheckCmd "D2" then some "-rw-rw---- root sdcard_rw 4096 sql.db"
    else none,
   fun c => c == mkStagedPullCmd "D2", false⟩

/-- Witness for `c3_first_confirmed_path_selected` at `c3SecondaryEnv`. -/
theorem c3_first_confirmed_path_selected_witness :
    (extract_sqlite_data_from_device c3SecondaryEnv).success = true
    ∧ (extract_sqlite_data_from_device c3SecondaryEnv).result = "SUCCESS"
    ∧ (extract_sqlite_data_from_device c3SecondaryEnv).issued
        = ["adb version", "adb devices",
           mkLsCmd "D2" path1 .noRoot, mkLsCmd "D2" path1 .su0,
           mkLsCmd "D2" path1 .suc,
           mkLsCmd "D2" path2 .noRoot, mkCpCmd "D2" path2 .noRoot,
           mkCheckCmd "D2", mkStagedPullCmd "D2", mkCleanupCmd "D2"] :=
  c3_first_confirmed_path_selected c3SecondaryEnv "D2" (by decide) (by decide)
    (by intro m; cases m <;> decide) (by decide) (by decide) (by decide)

/-- Witness for `c4_trace_in_every_outcome` at the concrete successful run
`c4SuccessEnv`. -/
theorem c4_trace_in_every_outcome_witness :
    (extract_sqlite_data_from_device c4SuccessEnv).debug ≠ [] :=
  c4_trace_in_every_outcome c4SuccessEnv
